import Mathlib

/-!
Verification of the conversational form-filling engine in `web_bot.py`
(a Streamlit job-application chatbot).

The engine is a small state machine driven once per user turn:
`step = -1` means the locale-selection phase (`AwaitingLocale` in the spec),
`step ≥ 0` means the answer phase with `step` the cursor into the active
question list.  Answers accumulate in `data`; on the final answer a row
`[timestamp] ++ data` is sent to the record sink (the spreadsheet).

External effects are made explicit parameters:
  * `now` — the wall clock read by `datetime.now()` at submission time;
  * `sinkFail` — the behaviour of `sh.append_row` (`none` = success,
    `some e` = the call raises with message `e`).
`handle_turn` returns the new state, the response text, and the row the
sink durably appended this turn (if any).
-/

/-- A question: display prompt, output-column label, and an optional list
of selectable options (`none` = free-text question). -/
structure Question where
  prompt : String
  field_name : String
  options : Option (List String)
deriving Repr, DecidableEq

def defaultQuestion : Question := ⟨"", "", none⟩

/-- The mutable session state of the bot (`st.session_state`). -/
structure BotState where
  messages : List (String × String)
  step : Int
  data : List String
  lang : Option String
deriving Repr, DecidableEq

/-- `EXP_OPTIONS` from the source. -/
def EXP_OPTIONS : List String :=
  ["Housekeeping", "Houseman", "Dishwasher", "Prep Cook", "Line cook",
   "Server", "Pool attendant / Host", "Other"]

/-- `SHIFT_OPTIONS` from the source. -/
def SHIFT_OPTIONS : List String := ["AM", "PM", "Flexible", "Overnight"]

/-- `LANG_OPTIONS` from the source. -/
def LANG_OPTIONS : List String := ["English", "Spanish", "Bilingual"]

/-- `TRANS_OPTIONS` from the source. -/
def TRANS_OPTIONS : List String := ["Own transportation", "Public Transportation"]

/-- One line `"{i+1}. {opt}"` of the enumerated option list shown in a prompt. -/
def enumLine (i : Nat) (opt : String) : String :=
  toString (i + 1) ++ ". " ++ opt

/-- `"\n".join(f"{i+1}. {opt}" for i, opt in enumerate(opts))`. -/
def optionsBlock (opts : List String) : String :=
  String.intercalate "\n" (opts.enum.map (fun p => enumLine p.1 p.2))

/-- `QUESTIONS_EN` from the source. -/
def QUESTIONS_EN : List Question :=
  [⟨"Let's start. What is your **First Name**?", "First Name", none⟩,
   ⟨"Thanks. And what is your **Last Name**?", "Last Name", none⟩,
   ⟨"What is your **Phone Number**?", "Phone", none⟩,
   ⟨"Select your **Previous Experience** (You can pick multiple, e.g., 1, 3):\n" ++
      optionsBlock EXP_OPTIONS, "Experience", some EXP_OPTIONS⟩,
   ⟨"What position do you want to **Apply For**? (Select numbers)\n" ++
      optionsBlock EXP_OPTIONS, "Applied Position", some EXP_OPTIONS⟩,
   ⟨"What **Shift** are you available to work?\n" ++
      optionsBlock SHIFT_OPTIONS, "Shift", some SHIFT_OPTIONS⟩,
   ⟨"What **Language** do you speak?\n" ++
      optionsBlock LANG_OPTIONS, "Language", some LANG_OPTIONS⟩,
   ⟨"What's your **Transportation** method?\n" ++
      optionsBlock TRANS_OPTIONS, "Transport", some TRANS_OPTIONS⟩,
   ⟨"When can you **Start**?", "Start Date", none⟩]

/-- `QUESTIONS_ES` from the source. -/
def QUESTIONS_ES : List Question :=
  [⟨"Empecemos. ¿Cuál es tu **Primer Nombre**?", "First Name", none⟩,
   ⟨"Gracias. ¿Y tu **Apellido**?", "Last Name", none⟩,
   ⟨"¿Cuál es tu número de **Teléfono**?", "Phone", none⟩,
   ⟨"Selecciona tu **Experiencia Previa** (Puedes elegir varias, ej. 1, 3):\n" ++
      optionsBlock EXP_OPTIONS, "Experience", some EXP_OPTIONS⟩,
   ⟨"¿A qué posición quieres **Aplicar**? (Selecciona números)\n" ++
      optionsBlock EXP_OPTIONS, "Applied Position", some EXP_OPTIONS⟩,
   ⟨"¿Qué **Turno** puedes trabajar?\n" ++
      optionsBlock SHIFT_OPTIONS, "Shift", some SHIFT_OPTIONS⟩,
   ⟨"¿Qué **Idioma** hablas?\n" ++
      optionsBlock LANG_OPTIONS, "Language", some LANG_OPTIONS⟩,
   ⟨"¿Cuál es tu método de **Transporte**?\n" ++
      optionsBlock TRANS_OPTIONS, "Transport", some TRANS_OPTIONS⟩,
   ⟨"¿Cuándo puedes **Comenzar**?", "Start Date", none⟩]

/-- `QUESTIONS_ES if lang == 'es' else QUESTIONS_EN`. -/
def questionList (lang : Option String) : List Question :=
  if lang = some "es" then QUESTIONS_ES else QUESTIONS_EN

/-- The initial session state (`step = -1`, no data, no language). -/
def initState : BotState :=
  ⟨[("assistant",
     "Hello! / ¡Hola!\n\nPlease type **English** or **Español** to start.")],
   -1, [], none⟩

/-- Does `needle` start `hay`? (helper for substring membership). -/
def segStarts : List Char → List Char → Bool
  | [], _ => true
  | _ :: _, [] => false
  | a :: as, b :: bs => a = b && segStarts as bs

/-- Does `needle` occur as a contiguous segment of `hay`? -/
def hasSeg (needle : List Char) : List Char → Bool
  | [] => needle.isEmpty
  | c :: t => segStarts needle (c :: t) || hasSeg needle t

/-- Python's `needle in hay` substring test. -/
def strHasSub (hay needle : String) : Bool :=
  hasSeg needle.toList hay.toList

/-- `user_input.lower()`: lower-casing, character by character (ASCII
letters are mapped to lower case, everything else kept). -/
def strLower (s : String) : String :=
  String.mk (s.toList.map Char.toLower)

/-- Accumulator half of `re.findall(r'\d+', s)`: maximal digit runs. -/
def digitRunsAux : List Char → List Char → List String
  | [], acc => if acc.isEmpty then [] else [String.mk acc.reverse]
  | c :: rest, acc =>
    if c.isDigit then digitRunsAux rest (c :: acc)
    else if acc.isEmpty then digitRunsAux rest []
    else String.mk acc.reverse :: digitRunsAux rest []

/-- `re.findall(r'\d+', s)`: every maximal run of decimal digits in `s`,
left to right. -/
def digitRuns (s : String) : List String :=
  digitRunsAux s.toList []

/-- `int(num)` for a string of decimal digits. -/
def strToNat (s : String) : Nat :=
  s.toList.foldl (fun n c => n * 10 + (c.toNat - 48)) 0

/-- The validator loop: for each found number `num`, if
`1 <= int(num) <= len(options)` append `options[int(num)-1]`. -/
def resolveSelections (options_available : List String) (user_input : String) :
    List String :=
  (digitRuns user_input).foldl
    (fun acc num =>
      let idx := strToNat num
      if 1 ≤ idx ∧ idx ≤ options_available.length then
        acc ++ [options_available.getD (idx - 1) ""]
      else acc)
    []

/-- `list(dict.fromkeys(l))`: deduplicate keeping the first occurrence. -/
def dedupFirstAux : List String → List String → List String
  | [], _ => []
  | x :: xs, seen =>
    if x ∈ seen then dedupFirstAux xs seen else x :: dedupFirstAux xs (x :: seen)

/-- `list(dict.fromkeys(l))` from the source's multi-select branch. -/
def dedupFirst (l : List String) : List String :=
  dedupFirstAux l []

/-- Python truthiness of `current_q[2]`: `None` and `[]` are falsy. -/
def optTruthy (o : Option (List String)) : Bool :=
  o.isSome && !(o.getD []).isEmpty

/-- A wall-clock reading, as consumed by `datetime.now().strftime`. -/
structure DateTime where
  year : Nat
  month : Nat
  day : Nat
  hour : Nat
  minute : Nat
  second : Nat
deriving Repr, DecidableEq

/-- Zero-pad to two digits (`%m`, `%d`, `%H`, `%M`, `%S`). -/
def pad2 (n : Nat) : String :=
  if n < 10 then "0" ++ toString n else toString n

/-- Zero-pad to four digits (`%Y`). -/
def pad4 (n : Nat) : String :=
  if n < 10 then "000" ++ toString n
  else if n < 100 then "00" ++ toString n
  else if n < 1000 then "0" ++ toString n
  else toString n

/-- `datetime.now().strftime("%Y-%m-%d %H:%M:%S")`. -/
def strftimeTimestamp (dt : DateTime) : String :=
  pad4 dt.year ++ "-" ++ pad2 dt.month ++ "-" ++ pad2 dt.day ++ " " ++
  pad2 dt.hour ++ ":" ++ pad2 dt.minute ++ ":" ++ pad2 dt.second

/-- One full turn of the engine, translated from the `if user_input := ...`
block of `web_bot.py`.  Returns `(new state, response_text, appended row)`;
the appended row is `some row` exactly when `sh.append_row` was called and
succeeded (`sinkFail = none`). -/
def handle_turn (s : BotState) (user_input : String) (now : DateTime)
    (sinkFail : Option String) : BotState × String × Option (List String) :=
  let s := { s with messages := s.messages ++ [("user", user_input)] }
  let result : BotState × String × Option (List String) :=
    if s.step = -1 then
      -- PHASE A: LANGUAGE SELECTION
      let txt := strLower user_input
      if strHasSub txt "span" || strHasSub txt "espa" then
        ({ s with lang := some "es", step := 0 },
         (QUESTIONS_ES.getD 0 defaultQuestion).prompt, none)
      else if strHasSub txt "eng" || strHasSub txt "ingl" then
        ({ s with lang := some "en", step := 0 },
         (QUESTIONS_EN.getD 0 defaultQuestion).prompt, none)
      else
        (s, "Please type **English** or **Español**.", none)
    else
      -- PHASE B: QUESTIONS
      let step := s.step.toNat
      let q_list := questionList s.lang
      let current_q := q_list.getD step defaultQuestion
      let options_available := current_q.options
      -- VALIDATOR
      let va : Bool × String :=
        if optTruthy options_available then
          let opts := options_available.getD []
          let found_numbers := digitRuns user_input
          let valid_selections := resolveSelections opts user_input
          if found_numbers.isEmpty then (false, user_input)
          else if valid_selections.isEmpty then (false, user_input)
          else (true, String.intercalate ", " (dedupFirst valid_selections))
        else (true, user_input)
      let valid_answer := va.1
      let answer_to_save := va.2
      if valid_answer then
        let data := s.data ++ [answer_to_save]
        let next_step := step + 1
        if next_step < q_list.length then
          ({ s with data := data, step := (next_step : Int) },
           (q_list.getD next_step defaultQuestion).prompt, none)
        else
          match sinkFail with
          | none =>
            let timestamp := strftimeTimestamp now
            let row := timestamp :: data
            ({ s with data := [], step := -1, lang := none },
             "✅ Application Received! You can close this window.", some row)
          | some e =>
            ({ s with data := data }, "Error saving data: " ++ e, none)
      else
        (s, "⚠️ Invalid selection. Please type the numbers (e.g., 1, 3).", none)
  ({ result.1 with messages := result.1.messages ++ [("assistant", result.2.1)] },
   result.2.1, result.2.2)

/-- Drive the engine over a whole input sequence with a succeeding sink,
collecting the appended rows and the responses in order. -/
def runSeq (dt : DateTime) : BotState → List String →
    BotState × List (List String) × List String
  | s, [] => (s, [], [])
  | s, inp :: rest =>
    let r := handle_turn s inp dt none
    let rr := runSeq dt r.1 rest
    (rr.1, r.2.2.toList ++ rr.2.1, r.2.1 :: rr.2.2)

/-- A fixed clock reading used to instantiate theorems on concrete runs. -/
def d0 : DateTime := ⟨2026, 1, 2, 3, 4, 5⟩

/-- A second, different clock reading. -/
def d1 : DateTime := ⟨2026, 6, 7, 8, 9, 10⟩

/-- A mid-conversation state sitting on the Shift question (index 5,
a multi-select with the 4 `SHIFT_OPTIONS`). -/
def demoShiftState : BotState :=
  ⟨[], 5, ["Alex", "Smith", "555-0100", "Housekeeping, Dishwasher", "Houseman"],
   some "en"⟩

/-- A state sitting on the final question (index 8, free text), with one
answer collected for each of the 8 earlier questions. -/
def presubmitState : BotState :=
  ⟨[], 8, ["Alex", "Smith", "555-0100", "Housekeeping, Dishwasher", "Houseman",
           "AM", "English", "Own transportation"],
   some "en"⟩

/-- A full application: one locale choice plus nine valid answers. -/
def demoInputs : List String :=
  ["English", "Alex", "Smith", "555-0100", "1, 3", "2", "1", "1", "1", "Monday"]

/-- The nine answers `demoInputs` resolves to, in question order. -/
def demoAnswers : List String :=
  ["Alex", "Smith", "555-0100", "Housekeeping, Dishwasher", "Houseman",
   "AM", "English", "Own transportation", "Monday"]

/-- A fresh English conversation sitting on question 0 (free text). -/
def freetextState : BotState := ⟨[], 0, [], some "en"⟩

/-! ### Helper lemmas about the validator -/

/-- The validator fold, rewritten as a `filterMap` (with an arbitrary
starting accumulator). -/
lemma foldl_sel_eq (opts : List String) (l : List String) (acc : List String) :
    l.foldl
      (fun acc num =>
        let idx := strToNat num
        if 1 ≤ idx ∧ idx ≤ opts.length then acc ++ [opts.getD (idx - 1) ""]
        else acc) acc
    = acc ++ l.filterMap (fun num =>
        let idx := strToNat num
        if 1 ≤ idx ∧ idx ≤ opts.length then some (opts.getD (idx - 1) "")
        else none) := by
  induction l generalizing acc with
  | nil => simp
  | cons a t ih =>
    simp only [List.foldl_cons, List.filterMap_cons]
    by_cases h : 1 ≤ strToNat a ∧ strToNat a ≤ opts.length
    · simp only [h, if_pos, ih]
      simp
    · simp only [h, if_neg, ih]
      simp [h]

/-- `resolveSelections` as a `filterMap` over the digit runs. -/
lemma resolveSelections_eq (opts : List String) (input : String) :
    resolveSelections opts input
    = (digitRuns input).filterMap (fun num =>
        let idx := strToNat num
        if 1 ≤ idx ∧ idx ≤ opts.length then some (opts.getD (idx - 1) "")
        else none) := by
  unfold resolveSelections
  simpa using foldl_sel_eq opts (digitRuns input) []

/-- If some digit run is in range, the resolved selections are non-empty. -/
lemma resolveSelections_ne_nil (opts : List String) (input : String)
    (h : ∃ r ∈ digitRuns input, 1 ≤ strToNat r ∧ strToNat r ≤ opts.length) :
    resolveSelections opts input ≠ [] := by
  obtain ⟨r, hr, hin⟩ := h
  rw [resolveSelections_eq]
  intro hnil
  rw [List.filterMap_eq_nil_iff] at hnil
  have := hnil r hr
  simp only [hin, if_pos] at this
  exact Option.some_ne_none _ this

/-- If no digit run is in range, the resolved selections are empty. -/
lemma resolveSelections_eq_nil (opts : List String) (input : String)
    (h : ∀ r ∈ digitRuns input, ¬(1 ≤ strToNat r ∧ strToNat r ≤ opts.length)) :
    resolveSelections opts input = [] := by
  rw [resolveSelections_eq, List.filterMap_eq_nil_iff]
  intro a ha
  simp [h a ha]

/-- No digit runs means no resolved selections. -/
lemma resolveSelections_of_no_runs (opts : List String) (input : String)
    (h : digitRuns input = []) : resolveSelections opts input = [] := by
  unfold resolveSelections
  rw [h]
  rfl

/-- Every question of either list that carries options is non-final and its
option list is non-empty (checked index by index on the static tables). -/
lemma questionList_options_bound (lang : Option String) (i : Nat)
    (opts : List String)
    (h : ((questionList lang).getD i defaultQuestion).options = some opts) :
    i + 1 < (questionList lang).length ∧ opts.isEmpty = false := by
  rcases Nat.lt_or_ge i 9 with hi | hi
  · unfold questionList at h ⊢
    split at h <;> (
      interval_cases i <;>
        simp_all [QUESTIONS_EN, QUESTIONS_ES, defaultQuestion,
          EXP_OPTIONS, SHIFT_OPTIONS, LANG_OPTIONS, TRANS_OPTIONS] <;>
        (try subst h) <;> simp_all)
  · exfalso
    rw [List.getD_eq_default] at h
    · simp [defaultQuestion] at h
    · unfold questionList
      split <;> simp [QUESTIONS_EN, QUESTIONS_ES] <;> omega


/-! ### Turn-level helper lemmas -/

/-- Locale phase, Spanish keyword hit. -/
lemma ht_locale_es (s : BotState) (input : String) (dt : DateTime)
    (f : Option String) (h : s.step = -1)
    (hm : (strHasSub (strLower input) "span" || strHasSub (strLower input) "espa")
      = true) :
    handle_turn s input dt f =
      (⟨s.messages ++ [("user", input),
          ("assistant", (QUESTIONS_ES.getD 0 defaultQuestion).prompt)],
        0, s.data, some "es"⟩,
       (QUESTIONS_ES.getD 0 defaultQuestion).prompt, none) := by
  rcases s with ⟨ms, st, da, lg⟩
  simp only at h
  subst h
  unfold handle_turn
  simp [hm]

/-- Locale phase, English keyword hit (and no Spanish keyword). -/
lemma ht_locale_en (s : BotState) (input : String) (dt : DateTime)
    (f : Option String) (h : s.step = -1)
    (hns : (strHasSub (strLower input) "span" || strHasSub (strLower input) "espa")
      = false)
    (hm : (strHasSub (strLower input) "eng" || strHasSub (strLower input) "ingl")
      = true) :
    handle_turn s input dt f =
      (⟨s.messages ++ [("user", input),
          ("assistant", (QUESTIONS_EN.getD 0 defaultQuestion).prompt)],
        0, s.data, some "en"⟩,
       (QUESTIONS_EN.getD 0 defaultQuestion).prompt, none) := by
  rcases s with ⟨ms, st, da, lg⟩
  simp only at h
  subst h
  unfold handle_turn
  simp [hns, hm]

/-- Locale phase, no keyword hit: re-prompt, state otherwise unchanged. -/
lemma ht_locale_none (s : BotState) (input : String) (dt : DateTime)
    (f : Option String) (h : s.step = -1)
    (hns : (strHasSub (strLower input) "span" || strHasSub (strLower input) "espa")
      = false)
    (hne : (strHasSub (strLower input) "eng" || strHasSub (strLower input) "ingl")
      = false) :
    handle_turn s input dt f =
      (⟨s.messages ++ [("user", input),
          ("assistant", "Please type **English** or **Español**.")],
        -1, s.data, s.lang⟩,
       "Please type **English** or **Español**.", none) := by
  rcases s with ⟨ms, st, da, lg⟩
  simp only at h
  subst h
  unfold handle_turn
  simp [hns, hne]

/-- Free-text question with further questions remaining: verbatim accept. -/
lemma ht_freetext_mid (s : BotState) (input : String) (dt : DateTime)
    (f : Option String) (i : Nat)
    (h : s.step = (i : Int))
    (hq : ((questionList s.lang).getD i defaultQuestion).options = none)
    (hlt : i + 1 < (questionList s.lang).length) :
    handle_turn s input dt f =
      (⟨s.messages ++ [("user", input),
          ("assistant", ((questionList s.lang).getD (i + 1) defaultQuestion).prompt)],
        ((i + 1 : Nat) : Int), s.data ++ [input], s.lang⟩,
       ((questionList s.lang).getD (i + 1) defaultQuestion).prompt, none) := by
  have hne : ((i : Int)) ≠ -1 := by omega
  rcases s with ⟨ms, st, da, lg⟩
  simp only at h hq hlt ⊢
  simp only [List.getD, List.get?_eq_getElem?] at hq
  subst h
  unfold handle_turn
  simp [hne, hq, optTruthy, hlt]

/-- Multi-select question with at least one resolved selection: the joined,
deduplicated labels are recorded and the cursor advances. -/
lemma ht_multi_valid (s : BotState) (input : String) (dt : DateTime)
    (f : Option String) (i : Nat) (opts : List String)
    (h : s.step = (i : Int))
    (hq : ((questionList s.lang).getD i defaultQuestion).options = some opts)
    (hne : resolveSelections opts input ≠ []) :
    handle_turn s input dt f =
      (⟨s.messages ++ [("user", input),
          ("assistant", ((questionList s.lang).getD (i + 1) defaultQuestion).prompt)],
        ((i + 1 : Nat) : Int),
        s.data ++
          [String.intercalate ", " (dedupFirst (resolveSelections opts input))],
        s.lang⟩,
       ((questionList s.lang).getD (i + 1) defaultQuestion).prompt, none) := by
  obtain ⟨hlt, hoe⟩ := questionList_options_bound s.lang i opts hq
  have hruns : (digitRuns input).isEmpty = false := by
    rcases hdr : digitRuns input with _ | ⟨a, t⟩
    · exact absurd (resolveSelections_of_no_runs opts input hdr) hne
    · rfl
  have hsel : (resolveSelections opts input).isEmpty = false := by
    rcases hv : resolveSelections opts input with _ | ⟨a, t⟩
    · exact absurd hv hne
    · rfl
  have hni : ((i : Int)) ≠ -1 := by omega
  rcases s with ⟨ms, st, da, lg⟩
  simp only at h hq hlt ⊢
  simp only [List.getD, List.get?_eq_getElem?] at hq
  subst h
  unfold handle_turn
  simp [hni, hq, optTruthy, hoe, hruns, hsel, hlt]

/-- Multi-select question where nothing resolves: rejected turn, only the
transcript grows. -/
lemma ht_multi_invalid (s : BotState) (input : String) (dt : DateTime)
    (f : Option String) (i : Nat) (opts : List String)
    (h : s.step = (i : Int))
    (hq : ((questionList s.lang).getD i defaultQuestion).options = some opts)
    (hemp : resolveSelections opts input = []) :
    handle_turn s input dt f =
      (⟨s.messages ++ [("user", input),
          ("assistant", "⚠️ Invalid selection. Please type the numbers (e.g., 1, 3).")],
        (i : Int), s.data, s.lang⟩,
       "⚠️ Invalid selection. Please type the numbers (e.g., 1, 3).", none) := by
  obtain ⟨hlt, hoe⟩ := questionList_options_bound s.lang i opts hq
  have hni : ((i : Int)) ≠ -1 := by omega
  rcases s with ⟨ms, st, da, lg⟩
  simp only at h hq ⊢
  simp only [List.getD, List.get?_eq_getElem?] at hq
  subst h
  unfold handle_turn
  rcases hdr : digitRuns input with _ | ⟨a, t⟩ <;>
    simp [hni, hq, optTruthy, hoe, hdr, hemp]

/-- Final answer accepted, sink append fails: error response, the extra
answer is retained, the cursor stays on the final question. -/
lemma ht_final_failure (s : BotState) (input : String) (dt : DateTime)
    (e : String) (h : s.step = 8) :
    handle_turn s input dt (some e) =
      (⟨s.messages ++ [("user", input),
          ("assistant", "Error saving data: " ++ e)],
        8, s.data ++ [input], s.lang⟩,
       "Error saving data: " ++ e, none) := by
  rcases s with ⟨ms, st, da, lg⟩
  simp only at h
  subst h
  unfold handle_turn
  unfold questionList
  rcases eq_or_ne lg (some "es") with hl | hl <;>
    simp [hl, QUESTIONS_ES, QUESTIONS_EN, defaultQuestion, optTruthy]

/-- Final answer accepted, sink append succeeds: completion message, the
row `[timestamp] ++ answers` is appended, state resets (transcript kept). -/
lemma ht_final_success (s : BotState) (input : String) (dt : DateTime)
    (h : s.step = 8) :
    handle_turn s input dt none =
      (⟨s.messages ++ [("user", input),
          ("assistant", "✅ Application Received! You can close this window.")],
        -1, [], none⟩,
       "✅ Application Received! You can close this window.",
       some (strftimeTimestamp dt :: (s.data ++ [input]))) := by
  rcases s with ⟨ms, st, da, lg⟩
  simp only at h
  subst h
  unfold handle_turn
  unfold questionList
  rcases eq_or_ne lg (some "es") with hl | hl <;>
    simp [hl, QUESTIONS_ES, QUESTIONS_EN, defaultQuestion, optTruthy]

/-! ### The clock only influences the first cell of an appended row -/

/-- The turn's state, response, and the tail of any appended row do not
depend on the clock reading. -/
lemma handle_turn_now_inv (s : BotState) (input : String) (f : Option String)
    (dt1 dt2 : DateTime) :
    (handle_turn s input dt1 f).1 = (handle_turn s input dt2 f).1 ∧
    (handle_turn s input dt1 f).2.1 = (handle_turn s input dt2 f).2.1 ∧
    (handle_turn s input dt1 f).2.2.map (List.drop 1)
      = (handle_turn s input dt2 f).2.2.map (List.drop 1) := by
  unfold handle_turn
  cases f <;> refine ⟨?_, ?_, ?_⟩ <;> dsimp only <;> split_ifs <;> simp

/-- A run under clock `dt1` appends the same rows as under `dt2`, with
only the leading timestamp cell exchanged. -/
lemma ht_now_swap (s : BotState) (input : String) (f : Option String)
    (dt1 dt2 : DateTime) :
    (handle_turn s input dt1 f).2.2
      = ((handle_turn s input dt2 f).2.2).map
          (fun r => strftimeTimestamp dt1 :: r.drop 1) := by
  unfold handle_turn
  cases f <;> dsimp only <;> split_ifs <;> simp

/-- Sequence version: final state and responses are clock-independent, and
the appended rows differ only in their timestamp cells. -/
lemma runSeq_now_inv (dt1 dt2 : DateTime) (inputs : List String) : ∀ s,
    (runSeq dt1 s inputs).1 = (runSeq dt2 s inputs).1 ∧
    (runSeq dt1 s inputs).2.2 = (runSeq dt2 s inputs).2.2 ∧
    (runSeq dt1 s inputs).2.1
      = (runSeq dt2 s inputs).2.1.map
          (fun r => strftimeTimestamp dt1 :: r.drop 1) := by
  induction inputs with
  | nil => intro s; simp [runSeq]
  | cons a t ih =>
    intro s
    obtain ⟨h1, h2, h3⟩ := handle_turn_now_inv s a none dt1 dt2
    have hswap := ht_now_swap s a none dt1 dt2
    obtain ⟨ih1, ih2, ih3⟩ := ih ((handle_turn s a dt1 none).1)
    simp only [runSeq]
    refine ⟨?_, ?_, ?_⟩
    · rw [ih1, h1]
    · rw [h2, ih2, h1]
    · rw [List.map_append, ← h1, ← ih3, hswap]
      rcases (handle_turn s a dt2 none).2.2 with _ | r <;> simp

/-- The demo run under the fixed clock `d0`: exactly one appended row. -/
lemma runSeq_demo_d0 :
    (runSeq d0 initState demoInputs).2.1
      = [strftimeTimestamp d0 :: demoAnswers] := by
  decide

/-- The demo run under an arbitrary clock: exactly one appended row,
`[timestamp] ++ demoAnswers`. -/
lemma runSeq_demo_rows (dt : DateTime) :
    (runSeq dt initState demoInputs).2.1
      = [strftimeTimestamp dt :: demoAnswers] := by
  rw [(runSeq_now_inv dt d0 demoInputs initState).2.2, runSeq_demo_d0]
  simp [demoAnswers]

/-! ### Claim theorems -/

/-- C1: on a multi-select question, any input with at least one in-range
digit run is accepted: the in-range runs resolve left-to-right to their
1-based options, out-of-range runs are dropped, the labels are
deduplicated preserving first occurrence, joined with ", ", the joined
string is appended to the collected answers, and the cursor advances
by 1. -/
theorem C1_multiselect_accept (s : BotState) (input : String) (dt : DateTime)
    (f : Option String) (i : Nat) (opts : List String)
    (h1 : s.step = (i : Int))
    (h2 : ((questionList s.lang).getD i defaultQuestion).options = some opts)
    (h3 : ∃ r ∈ digitRuns input, 1 ≤ strToNat r ∧ strToNat r ≤ opts.length) :
    (handle_turn s input dt f).1.data
      = s.data ++
        [String.intercalate ", " (dedupFirst (resolveSelections opts input))] ∧
    (handle_turn s input dt f).1.step = ((i + 1 : Nat) : Int) := by
  have hne := resolveSelections_ne_nil opts input h3
  rw [ht_multi_valid s input dt f i opts h1 h2 hne]
  exact ⟨rfl, rfl⟩

/-- C1 witness: "1, 3" against the 4 shift options yields "AM, Flexible"
(options[0] and options[2]); "1, 1, 2" deduplicates to "AM, PM". -/
theorem C1_multiselect_accept_witness :
    ((handle_turn demoShiftState "1, 3" d0 none).1.data
        = demoShiftState.data ++ ["AM, Flexible"] ∧
      (handle_turn demoShiftState "1, 3" d0 none).1.step = 6) ∧
    (handle_turn demoShiftState "1, 1, 2" d0 none).1.data
        = demoShiftState.data ++ ["AM, PM"] := by
  have ha := C1_multiselect_accept demoShiftState "1, 3" d0 none 5 SHIFT_OPTIONS
    rfl (by decide) ⟨"1", by decide, by decide⟩
  have hb := C1_multiselect_accept demoShiftState "1, 1, 2" d0 none 5 SHIFT_OPTIONS
    rfl (by decide) ⟨"1", by decide, by decide⟩
  refine ⟨⟨?_, ?_⟩, ?_⟩
  · rw [ha.1]; decide
  · rw [ha.2]; decide
  · rw [hb.1]; decide

/-- C2: accepted final answer with a succeeding sink append: exactly the
row `[timestamp] ++ collected_answers` is appended (timestamp rendered by
`strftime("%Y-%m-%d %H:%M:%S")` at submission time), the response is the
fixed completion message, and locale, cursor and collected answers reset
(`step = -1`, `data = []`, `lang = none`) while the transcript is kept. -/
theorem C2_submit_success (s : BotState) (input : String) (dt : DateTime)
    (h : s.step = 8) :
    (handle_turn s input dt none).2.2
        = some (strftimeTimestamp dt :: (s.data ++ [input])) ∧
    (handle_turn s input dt none).2.1
        = "✅ Application Received! You can close this window." ∧
    (handle_turn s input dt none).1.step = -1 ∧
    (handle_turn s input dt none).1.data = [] ∧
    (handle_turn s input dt none).1.lang = none ∧
    (handle_turn s input dt none).1.messages
        = s.messages ++ [("user", input),
            ("assistant", "✅ Application Received! You can close this window.")] := by
  rw [ht_final_success s input dt h]
  exact ⟨rfl, rfl, rfl, rfl, rfl, rfl⟩

/-- C2 witness: submitting the last answer from a concrete pre-submit
state appends the concrete row and resets the state. -/
theorem C2_submit_success_witness :
    (handle_turn presubmitState "ASAP" d0 none).2.2
        = some ["2026-01-02 03:04:05", "Alex", "Smith", "555-0100",
                "Housekeeping, Dishwasher", "Houseman", "AM", "English",
                "Own transportation", "ASAP"] ∧
    (handle_turn presubmitState "ASAP" d0 none).1.step = -1 ∧
    (handle_turn presubmitState "ASAP" d0 none).1.data = [] ∧
    (handle_turn presubmitState "ASAP" d0 none).1.lang = none := by
  have h := C2_submit_success presubmitState "ASAP" d0 rfl
  refine ⟨?_, h.2.2.1, h.2.2.2.1, h.2.2.2.2.1⟩
  rw [h.1]; decide

/-- C3 counterexample: the claim says a resubmission after a sink failure
"requires re-answering all questions".  It does not: from a concrete
post-failure state, answering only the re-asked final question already
triggers a successful sink append (whose row carries the duplicated final
answer). -/
theorem C3_counterexample :
    (handle_turn presubmitState "ASAP" d0 (some "quota exceeded")).2.1
        = "Error saving data: quota exceeded" ∧
    (handle_turn
        (handle_turn presubmitState "ASAP" d0 (some "quota exceeded")).1
        "ASAP" d1 none).2.2
      = some ["2026-06-07 08:09:10", "Alex", "Smith", "555-0100",
              "Housekeeping, Dishwasher", "Houseman", "AM", "English",
              "Own transportation", "ASAP", "ASAP"] := by
  decide

/-- C3 amended: when the sink append fails on final submission, the
response embeds the failure detail, nothing is reset (cursor stays on the
final question, collected answers — including the just-accepted final
answer — and locale are retained, no row is durably appended); a
resubmission then requires re-answering only the final question, after
which a row with the duplicated final answer is appended. -/
theorem C3_sink_failure (s : BotState) (input : String) (dt : DateTime)
    (e : String) (h : s.step = 8) :
    (handle_turn s input dt (some e)).2.1 = "Error saving data: " ++ e ∧
    (handle_turn s input dt (some e)).2.2 = none ∧
    (handle_turn s input dt (some e)).1.step = 8 ∧
    (handle_turn s input dt (some e)).1.data = s.data ++ [input] ∧
    (handle_turn s input dt (some e)).1.lang = s.lang ∧
    ∀ (input2 : String) (dt2 : DateTime),
      (handle_turn (handle_turn s input dt (some e)).1 input2 dt2 none).2.2
        = some (strftimeTimestamp dt2 :: (s.data ++ [input, input2])) := by
  rw [ht_final_failure s input dt e h]
  refine ⟨rfl, rfl, rfl, rfl, rfl, ?_⟩
  intro input2 dt2
  rw [ht_final_success _ input2 dt2 rfl]
  simp

/-- C3 witness: the amended behaviour at a concrete failure. -/
theorem C3_sink_failure_witness :
    (handle_turn presubmitState "ASAP" d0 (some "boom")).2.1
        = "Error saving data: boom" ∧
    (handle_turn presubmitState "ASAP" d0 (some "boom")).2.2 = none ∧
    (handle_turn presubmitState "ASAP" d0 (some "boom")).1.step = 8 := by
  have h := C3_sink_failure presubmitState "ASAP" d0 "boom" rfl
  exact ⟨h.1, h.2.1, h.2.2.1⟩

/-- C4: on a multi-select question, an input in which no digit run is in
range (no digits, or all out of range) is rejected: the state is unchanged
except for the transcript, no row is appended, and the response is the
fixed validation warning (so the same question is asked again; retries are
unlimited because the rejecting turn is a no-op on the control state). -/
theorem C4_multiselect_reject (s : BotState) (input : String) (dt : DateTime)
    (f : Option String) (i : Nat) (opts : List String)
    (h1 : s.step = (i : Int))
    (h2 : ((questionList s.lang).getD i defaultQuestion).options = some opts)
    (h3 : ∀ r ∈ digitRuns input, ¬(1 ≤ strToNat r ∧ strToNat r ≤ opts.length)) :
    (handle_turn s input dt f).1
        = { s with messages := s.messages ++ [("user", input),
              ("assistant",
               "⚠️ Invalid selection. Please type the numbers (e.g., 1, 3).")] } ∧
    (handle_turn s input dt f).2.1
        = "⚠️ Invalid selection. Please type the numbers (e.g., 1, 3)." ∧
    (handle_turn s input dt f).2.2 = none := by
  have hemp := resolveSelections_eq_nil opts input h3
  rw [ht_multi_invalid s input dt f i opts h1 h2 hemp]
  refine ⟨?_, rfl, rfl⟩
  rw [← h1]

/-- C4 witness: submitting "5" against the 4 shift options is rejected
with the cursor unchanged. -/
theorem C4_multiselect_reject_witness :
    (handle_turn demoShiftState "5" d0 none).1
        = { demoShiftState with
            messages := demoShiftState.messages ++ [("user", "5"),
              ("assistant",
               "⚠️ Invalid selection. Please type the numbers (e.g., 1, 3).")] } ∧
    (handle_turn demoShiftState "5" d0 none).2.1
        = "⚠️ Invalid selection. Please type the numbers (e.g., 1, 3)." ∧
    (handle_turn demoShiftState "5" d0 none).2.2 = none :=
  C4_multiselect_reject demoShiftState "5" d0 none 5 SHIFT_OPTIONS
    rfl (by decide) (by decide)

/-- C5: locale phase (`step = -1`): the engine lower-cases the input and
tests substring membership; "span"/"espa" selects Spanish, else
"eng"/"ingl" selects English — on a match the cursor becomes 0 (phase
`AwaitingAnswer`) and the response is the matching list's question 0
prompt; with no match the state is unchanged (so retries are unlimited)
and the response re-prompts for a locale. -/
theorem C5_locale_phase (s : BotState) (input : String) (dt : DateTime)
    (f : Option String) (h : s.step = -1) :
    ((strHasSub (strLower input) "span" || strHasSub (strLower input) "espa")
        = true →
      (handle_turn s input dt f).1.lang = some "es" ∧
      (handle_turn s input dt f).1.step = 0 ∧
      (handle_turn s input dt f).2.1
        = (QUESTIONS_ES.getD 0 defaultQuestion).prompt) ∧
    ((strHasSub (strLower input) "span" || strHasSub (strLower input) "espa")
        = false →
     (strHasSub (strLower input) "eng" || strHasSub (strLower input) "ingl")
        = true →
      (handle_turn s input dt f).1.lang = some "en" ∧
      (handle_turn s input dt f).1.step = 0 ∧
      (handle_turn s input dt f).2.1
        = (QUESTIONS_EN.getD 0 defaultQuestion).prompt) ∧
    ((strHasSub (strLower input) "span" || strHasSub (strLower input) "espa")
        = false →
     (strHasSub (strLower input) "eng" || strHasSub (strLower input) "ingl")
        = false →
      (handle_turn s input dt f).1
        = { s with messages := s.messages ++ [("user", input),
              ("assistant", "Please type **English** or **Español**.")] } ∧
      (handle_turn s input dt f).2.1
        = "Please type **English** or **Español**.") := by
  refine ⟨fun hm => ?_, fun hns hm => ?_, fun hns hne => ?_⟩
  · rw [ht_locale_es s input dt f h hm]; exact ⟨rfl, rfl, rfl⟩
  · rw [ht_locale_en s input dt f h hns hm]; exact ⟨rfl, rfl, rfl⟩
  · rw [ht_locale_none s input dt f h hns hne]
    refine ⟨?_, rfl⟩
    rw [← h]

/-- C5 witness: "maybe" matches no keyword, so the fresh state only grows
its transcript and the re-prompt is returned. -/
theorem C5_locale_phase_witness :
    (handle_turn initState "maybe" d0 none).1
        = { initState with messages := initState.messages ++ [("user", "maybe"),
              ("assistant", "Please type **English** or **Español**.")] } ∧
    (handle_turn initState "maybe" d0 none).2.1
        = "Please type **English** or **Español**." :=
  (C5_locale_phase initState "maybe" d0 none rfl).2.2 (by decide) (by decide)

/-- C6 counterexample: question 8 (the last one) is free text, yet
submitting a free-text answer there does not advance the cursor by 1 — on
a successful submission the cursor is reset to -1, not 9. -/
theorem C6_counterexample :
    ((questionList presubmitState.lang).getD 8 defaultQuestion).options
        = none ∧
    presubmitState.step = 8 ∧
    (handle_turn presubmitState "  May 1  " d0 none).1.step
        ≠ presubmitState.step + 1 := by
  decide

/-- C6 amended: on a free-text question the raw input is accepted
verbatim (no trimming, no emptiness or format check — free text can never
fail validation) and appended unchanged to the collected answers; the
cursor advances by 1 whenever further questions remain, while on the
final question the submission flow runs instead. -/
theorem C6_freetext_verbatim (s : BotState) (input : String) (dt : DateTime)
    (f : Option String) (i : Nat)
    (h1 : s.step = (i : Int))
    (hq : ((questionList s.lang).getD i defaultQuestion).options = none)
    (hlt : i + 1 < (questionList s.lang).length) :
    (handle_turn s input dt f).1.data = s.data ++ [input] ∧
    (handle_turn s input dt f).1.step = ((i + 1 : Nat) : Int) ∧
    (handle_turn s input dt f).2.1
        = ((questionList s.lang).getD (i + 1) defaultQuestion).prompt := by
  rw [ht_freetext_mid s input dt f i h1 hq hlt]
  exact ⟨rfl, rfl, rfl⟩

/-- C6 witness: free text with surrounding whitespace is stored verbatim
on question 0 and the cursor moves to question 1. -/
theorem C6_freetext_verbatim_witness :
    (handle_turn freetextState "  Alex  " d0 none).1.data
        = freetextState.data ++ ["  Alex  "] ∧
    (handle_turn freetextState "  Alex  " d0 none).1.step = ((0 + 1 : Nat) : Int) ∧
    (handle_turn freetextState "  Alex  " d0 none).2.1
        = ((questionList freetextState.lang).getD (0 + 1) defaultQuestion).prompt :=
  C6_freetext_verbatim freetextState "  Alex  " d0 none 0 rfl (by decide)
    (by decide)

/-- C7: the two question tables are parallel — same length, and the same
field name at every index (they differ only in prompt text). -/
theorem C7_question_sets_parallel :
    QUESTIONS_EN.length = QUESTIONS_ES.length ∧
    ∀ i : Nat,
      (QUESTIONS_EN.getD i defaultQuestion).field_name
        = (QUESTIONS_ES.getD i defaultQuestion).field_name := by
  refine ⟨rfl, fun i => ?_⟩
  match i with
  | 0 => rfl
  | 1 => rfl
  | 2 => rfl
  | 3 => rfl
  | 4 => rfl
  | 5 => rfl
  | 6 => rfl
  | 7 => rfl
  | 8 => rfl
  | n + 9 =>
    rw [List.getD_eq_default, List.getD_eq_default] <;>
      simp [QUESTIONS_EN, QUESTIONS_ES]

/-- C8: apart from the submission timestamp, a run is a deterministic
function of the input sequence: two runs of the same inputs from fresh
states under different clocks end in identical states, produce identical
responses, and append rows identical except for the leading timestamp
cell; in particular the demo sequence (one locale choice plus nine valid
answers) appends exactly one row, `[timestamp] ++ demoAnswers`, under
each clock. -/
theorem C8_deterministic_modulo_timestamp (inputs : List String)
    (dt1 dt2 : DateTime) :
    ((runSeq dt1 initState inputs).1 = (runSeq dt2 initState inputs).1 ∧
     (runSeq dt1 initState inputs).2.2 = (runSeq dt2 initState inputs).2.2 ∧
     (runSeq dt1 initState inputs).2.1.map (List.drop 1)
       = (runSeq dt2 initState inputs).2.1.map (List.drop 1)) ∧
    (runSeq dt1 initState demoInputs).2.1
        = [strftimeTimestamp dt1 :: demoAnswers] ∧
    (runSeq dt2 initState demoInputs).2.1
        = [strftimeTimestamp dt2 :: demoAnswers] := by
  obtain ⟨h1, h2, h3⟩ := runSeq_now_inv dt1 dt2 inputs initState
  refine ⟨⟨h1, h2, ?_⟩, runSeq_demo_rows dt1, runSeq_demo_rows dt2⟩
  rw [h3, List.map_map]
  refine List.map_congr_left fun r hr => ?_
  simp

/-- C9: after a sink failure on the final submission, the just-accepted
final answer stays buffered while the cursor stays on the final question,
so `len(collected_answers) = cursor + 1`; one further valid answer to the
re-asked final question immediately triggers another append whose row has
one cell per question plus a duplicate final-question cell (row length =
number of questions + 2, counting the timestamp). -/
theorem C9_failure_buffer_duplicate (s : BotState) (input input2 : String)
    (dt dt2 : DateTime) (e : String)
    (h1 : s.step = 8) (h2 : s.data.length = 8) :
    (handle_turn s input dt (some e)).1.step = 8 ∧
    ((handle_turn s input dt (some e)).1.data.length : Int)
        = (handle_turn s input dt (some e)).1.step + 1 ∧
    (handle_turn (handle_turn s input dt (some e)).1 input2 dt2 none).2.2
        = some (strftimeTimestamp dt2 :: (s.data ++ [input, input2])) ∧
    (strftimeTimestamp dt2 :: (s.data ++ [input, input2])).length
        = QUESTIONS_EN.length + 2 := by
  rw [ht_final_failure s input dt e h1]
  refine ⟨rfl, ?_, ?_, ?_⟩
  · simp [h2]
  · rw [ht_final_success _ input2 dt2 rfl]
    simp
  · simp [h2, QUESTIONS_EN]

/-- C9 witness: the concrete failure state has 9 buffered answers with the
cursor still at 8, and one further answer appends an 11-cell row. -/
theorem C9_failure_buffer_duplicate_witness :
    (handle_turn presubmitState "ASAP" d0 (some "boom")).1.step = 8 ∧
    ((handle_turn presubmitState "ASAP" d0 (some "boom")).1.data.length : Int)
        = (handle_turn presubmitState "ASAP" d0 (some "boom")).1.step + 1 ∧
    (handle_turn (handle_turn presubmitState "ASAP" d0 (some "boom")).1
        "Monday" d1 none).2.2
        = some (strftimeTimestamp d1
            :: (presubmitState.data ++ ["ASAP", "Monday"])) ∧
    (strftimeTimestamp d1 :: (presubmitState.data ++ ["ASAP", "Monday"])).length
        = QUESTIONS_EN.length + 2 :=
  C9_failure_buffer_duplicate presubmitState "ASAP" "Monday" d0 d1 "boom"
    rfl (by decide)

/-- C10: the Spanish keyword test runs before the English one, so an input
containing keywords of both languages selects Spanish. -/
theorem C10_spanish_tested_first (s : BotState) (input : String)
    (dt : DateTime) (f : Option String) (h : s.step = -1)
    (hs : (strHasSub (strLower input) "span" || strHasSub (strLower input) "espa")
      = true)
    (he : (strHasSub (strLower input) "eng" || strHasSub (strLower input) "ingl")
      = true) :
    (handle_turn s input dt f).1.lang = some "es" ∧
    (handle_turn s input dt f).1.step = 0 := by
  rw [ht_locale_es s input dt f h hs]
  exact ⟨rfl, rfl⟩

/-- C10 witness: "spanish and english" contains keywords of both sets and
selects Spanish. -/
theorem C10_spanish_tested_first_witness :
    (handle_turn initState "spanish and english" d0 none).1.lang = some "es" ∧
    (handle_turn initState "spanish and english" d0 none).1.step = 0 :=
  C10_spanish_tested_first initState "spanish and english" d0 none rfl
    (by decide) (by decide)
